import Mathlib

/-!
Shallow embedding of the Gmail/Calendar agent system
(src/agents/gmail_agent.py, src/agents/calendar_agent.py,
src/agents/orchestration_agent.py, src/tools/gmail_tools.py),
with theorems settling the spec claims about the agent tool-calling
loop, the delegation router, the conversation state machine and the
gmail tools.
-/

namespace AgentSys

/-! ## String helpers (Python `str.lower`, `in`, `str.title`, `", ".join`) -/

/-- Character-list test: does the first list start with the second?
Models the beginning of Python substring search. -/
def startsWithL : List Char → List Char → Bool
  | _, [] => true
  | [], _ :: _ => false
  | c :: cs, d :: ds => (c = d) && startsWithL cs ds

/-- Does `needle` occur as a contiguous run inside `hay`?  Models
Python `needle in hay` on strings, via the character lists. -/
def containsSub (needle : List Char) : List Char → Bool
  | [] => needle.isEmpty
  | c :: tl => startsWithL (c :: tl) needle || containsSub needle tl

/-- Python `needle in haystack` for strings. -/
def strContains (haystack needle : String) : Bool :=
  containsSub needle.data haystack.data

/-- Python `s.lower()` (ASCII case folding, character-wise). -/
def lowerStr (s : String) : String :=
  ⟨s.data.map Char.toLower⟩

/-- Helper for `title`: the Boolean argument records whether the
previous character was alphabetic. -/
def titleAux : Bool → List Char → List Char
  | _, [] => []
  | prevAlpha, c :: cs =>
    let c' := if c.isAlpha then (if prevAlpha then c.toLower else c.toUpper) else c
    c' :: titleAux c.isAlpha cs

/-- Python `s.title()`: first letter of each alphabetic run upper-cased,
the rest lower-cased. -/
def title (s : String) : String :=
  ⟨titleAux false s.data⟩

/-! ## Messages and tools

`Message` embeds the langchain message union used by the agents:
SystemMessage, HumanMessage, AIMessage (with its `tool_calls` list)
and ToolMessage (with its `tool_call_id` back-reference). -/

/-- One model-issued tool call: `{"id": ..., "name": ..., "args": ...}`.
The argument mapping is kept abstract as a string blob, since the loop
only passes it through to `tool.invoke`. -/
structure ToolCall where
  id : String
  name : String
  args : String
deriving Repr, DecidableEq

inductive Message where
  | system (content : String)
  | human (content : String)
  | ai (content : String) (tool_calls : List ToolCall)
  | tool (content : String) (tool_call_id : String)
deriving Repr, DecidableEq

/-- The `tool_call_id` of a Tool message, `none` for every other role. -/
def Message.toolCallId? : Message → Option String
  | Message.tool _ tcid => some tcid
  | _ => none

/-- What the chat model returns for one invocation: text content plus
the (possibly empty) `tool_calls` list of the AIMessage. -/
structure ModelResponse where
  content : String
  tool_calls : List ToolCall

/-- A registered tool: a name and an execution function.  `Except.error e`
models the Python execution raising an exception whose `str` is `e`. -/
structure Tool where
  name : String
  invoke : String → Except String String

/-- `next((t for t in self.tools if t.name == tool_call["name"]), None)`:
first tool in the list with the requested name. -/
def findTool (tools : List Tool) (n : String) : Option Tool :=
  tools.find? (fun t => t.name == n)

/-! ## The agent tool-calling loop

`GmailAgent.process_request` and `CalendarAgent.process_request` share
this loop body verbatim (gmail_agent.py lines 104-141, calendar_agent.py
lines 111-145): invoke the model, append its response; if the response
carries tool calls, resolve each by name, invoke the resolved ones and
append a ToolMessage per invocation (result text, or
`"Tool execution error: ..."` when the tool raised), then re-invoke the
model; a ToolCall whose name resolves to no tool falls through the
`if tool:` test with no `else` branch.  Otherwise return the response
content. -/

/-- The ToolMessage appended for one resolved tool call: the tool's
output on success, the converted error text when the tool raised;
either way it bears the originating call's id. -/
def runToolCall (t : Tool) (tc : ToolCall) : Message :=
  match t.invoke tc.args with
  | Except.ok out => Message.tool out tc.id
  | Except.error e => Message.tool ("Tool execution error: " ++ e) tc.id

/-- The `for tool_call in response.tool_calls` body: the list of
ToolMessages appended to the history, in emission order.  An
unresolvable name appends nothing (`if tool:` with no `else`). -/
def processToolCalls (tools : List Tool) : List ToolCall → List Message
  | [] => []
  | tc :: rest =>
    match findTool tools tc.name with
    | some t => runToolCall t tc :: processToolCalls tools rest
    | none => processToolCalls tools rest

/-- How many times `tool.invoke` runs while handling the list: once per
tool call whose name resolves (an invocation that raises still counts). -/
def toolInvocations (tools : List Tool) (tcs : List ToolCall) : Nat :=
  (tcs.filter (fun tc => (findTool tools tc.name).isSome)).length

/-- The `while True` loop of `process_request`, with explicit fuel so the
embedding is total.  Returns the final answer paired with the number of
model invocations performed; `none` means the fuel ran out. -/
def agent_loop (model : List Message → ModelResponse) (tools : List Tool) :
    Nat → List Message → Nat → Option (String × Nat)
  | 0, _, _ => none
  | fuel + 1, messages, calls =>
    let response := model messages
    let messages' := messages ++ [Message.ai response.content response.tool_calls]
    if response.tool_calls.isEmpty then
      some (response.content, calls + 1)
    else
      agent_loop model tools fuel
        (messages' ++ processToolCalls tools response.tool_calls) (calls + 1)

/-- `process_request(request)`: seed the history with the system prompt
and the user request, then run the loop. -/
def process_request (model : List Message → ModelResponse) (tools : List Tool)
    (system_prompt request : String) (fuel : Nat) : Option (String × Nat) :=
  agent_loop model tools fuel
    [Message.system system_prompt, Message.human request] 0

/-! ## Per-agent system prompts and history seeding

`gmail_agent._get_system_prompt` is a constant; `GmailAgent.__init__`
stores its value as `self.system_prompt` and `process_request` seeds the
history from that stored field.  `calendar_agent._get_system_prompt`
interpolates `datetime.now()` (modelled here as an explicit `now`
string); `CalendarAgent.__init__` stores one value, but
`CalendarAgent.process_request` calls `_get_system_prompt()` afresh
("Regenerate system prompt to get current datetime"). -/

def gmail_get_system_prompt : String :=
  "You are a helpful Gmail assistant specialized in email management and organization.\n\n\n    When asked to draft emails, follow this workflow:\n    1. Analyze the user's request to determine the email recipient, content and subject\n    2. Use 'draft_email' to create a draft email\n\n    When asked to search and label emails, follow this workflow:\n    1. Use 'search_emails' to find relevant emails (returns email IDs)\n    2. Use 'get_email_content' to retrieve the content of each email using the IDs\n    3. Analyze the email content to determine appropriate categorization\n    4. Use 'apply_email_label' to apply the appropriate label to each email\n\n    Available predefined labels: \"Spam\", \"News\", \"University\", \"Financial\", \"Personal\", \"Work\", \"Promotions\", \"Meeting\", \"Other\"\n\n    When asked to search for specific email content, follow this workflow:\n    1. Use 'search_emails' to find relevant emails (returns email IDs)\n    2. Use 'get_email_content' to retrieve the content of each email using the IDs\n    3. Analyze the email content to determine if it matches the user's request\n\n    Important guidelines:\n    - Always examine email content before applying labels to ensure accurate categorization\n    - When search returns multiple emails, process each one individually\n    - Parse email IDs carefully from search results (e.g., \"Found 3 emails with IDs: abc123, def456\" → use \"abc123\", \"def456\")\n    - Be specific about what actions were taken on each email\n    - If an email doesn't clearly fit a category, explain why and suggest the best match\n\n    Always be thorough and accurate"

structure GmailAgentState where
  system_prompt : String

/-- `GmailAgent.__init__`: `self.system_prompt = _get_system_prompt()`. -/
def GmailAgent.init : GmailAgentState :=
  ⟨gmail_get_system_prompt⟩

/-- The history seeded by `GmailAgent.process_request`: the stored
`self.system_prompt` and the user request. -/
def gmail_seed (agent : GmailAgentState) (request : String) : List Message :=
  [Message.system agent.system_prompt, Message.human request]

/-- Modelled from the spec: the behavior the spec claims for every
sub-agent — a system message "built fresh per call" by the module's
prompt builder at seeding time, ignoring whatever value the instance
stored at construction.  To be compared with `gmail_seed`, which reads
the stored `self.system_prompt` field instead. -/
def gmail_seed_fresh_spec (request : String) : List Message :=
  [Message.system gmail_get_system_prompt, Message.human request]

/-- The text of the calendar system prompt before the interpolated
`current_datetime`. -/
def calendar_prompt_head : String :=
  "You are a helpful Google Calendar assistant specialized in managing calendar events.\n\nCurrent date and time: "

/-- The text of the calendar system prompt after the interpolated
`current_datetime`. -/
def calendar_prompt_tail : String :=
  "\n\nWhen asked to create events, follow this workflow:\n1. Parse the user's request to extract event details (title, date/time, location, description)\n2. Use 'create_calendar_event' to create the event\n3. Confirm creation with the event ID and link\n\nWhen asked to find/search events, follow this workflow:\n1. Use 'search_calendar_events' to find events based on text or time range\n2. If needed, use 'get_calendar_event' to get full details of specific events\n3. Present the results clearly to the user\n\nWhen asked to update events, follow this workflow:\n1. Use 'search_calendar_events' to find the event if ID not provided\n2. Use 'update_calendar_event' to modify the event details\n3. Confirm the changes made\n\nWhen asked to delete events, follow this workflow:\n1. Use 'search_calendar_events' to find the event if ID not provided\n2. Optionally use 'get_calendar_event' to confirm it's the right event\n3. Use 'delete_calendar_event' to remove the event\n4. Confirm deletion\n\nImportant guidelines:\n- Be smart about parsing dates and times from natural language using the current date/time as reference\n- If time is not specified, ask if it should be an all-day event\n- Always confirm successful operations with relevant details\n- When multiple events match a search, help the user identify the correct one\n- Be clear about what actions were taken\n\nBe helpful, accurate, and efficient in managing calendar events."

/-- `calendar_agent._get_system_prompt()` run when the formatted wall
clock reads `now`. -/
def calendar_get_system_prompt (now : String) : String :=
  calendar_prompt_head ++ now ++ calendar_prompt_tail

structure CalendarAgentState where
  system_prompt : String

/-- `CalendarAgent.__init__` run when the wall clock reads
`constructionNow`: `self.system_prompt = _get_system_prompt()`. -/
def CalendarAgent.init (constructionNow : String) : CalendarAgentState :=
  ⟨calendar_get_system_prompt constructionNow⟩

/-- The history seeded by `CalendarAgent.process_request` run when the
wall clock reads `callNow`: the source calls `_get_system_prompt()`
afresh instead of reading `self.system_prompt`. -/
def calendar_seed (_agent : CalendarAgentState) (callNow : String)
    (request : String) : List Message :=
  [Message.system (calendar_get_system_prompt callNow), Message.human request]

/-! ## Delegation router (`ConversationalOrchestrator._should_delegate`)

The registry of sub-agents is `self.sub_agents`, a dict populated by
`add_sub_agent`; Python dicts iterate in insertion order, so it is
embedded as an ordered association list name ↦ trigger list. -/

/-- The inner `for trigger in config["triggers"]` loop: does some
trigger, lower-cased, occur in the lower-cased message? -/
def triggers_match (message_lower : String) : List String → Bool
  | [] => false
  | t :: ts => strContains message_lower (lowerStr t) || triggers_match message_lower ts

/-- `_should_delegate` restricted to an already lower-cased message. -/
def should_delegate_go : List (String × List String) → String → Option String
  | [], _ => none
  | (name, trigs) :: rest, ml =>
    if triggers_match ml trigs then some name else should_delegate_go rest ml

/-- `ConversationalOrchestrator._should_delegate(user_message)`. -/
def should_delegate (registry : List (String × List String))
    (user_message : String) : Option String :=
  should_delegate_go registry (lowerStr user_message)

/-- The spec-level matching predicate for one registry entry: some
trigger phrase, compared case-insensitively, is a substring of the
message. -/
def agentMatches (m : String) (p : String × List String) : Prop :=
  ∃ t ∈ p.2, strContains (lowerStr m) (lowerStr t) = true

/-! ## Conversation state machine (`orchestration_agent.py`)

`OrchestrationState` is the langgraph state; a node returns a partial
update whose `messages` entry is appended by the `add_messages` reducer
while the scalar fields are overwritten. -/

structure OState where
  messages : List Message
  current_task : Option String
  delegated_to : Option String
  task_complete : Bool
deriving Repr, DecidableEq

/-- The dict a node returns: messages to append plus the new scalar
fields. -/
structure StateUpdate where
  new_messages : List Message
  current_task : Option String
  delegated_to : Option String
  task_complete : Bool
deriving Repr, DecidableEq

/-- The `add_messages` reducer plus overwrite of the scalar fields. -/
def applyUpdate (s : OState) (u : StateUpdate) : OState :=
  { messages := s.messages ++ u.new_messages
    current_task := u.current_task
    delegated_to := u.delegated_to
    task_complete := u.task_complete }

def isSystemMessage : Message → Bool
  | Message.system _ => true
  | _ => false

/-- `f"'{t}'"` as used when listing triggers in the orchestrator
system prompt. -/
def quoteTrigger (t : String) : String := "'" ++ t ++ "'"

/-- One line of `agent_descriptions` in
`ConversationalOrchestrator._get_system_prompt`. -/
def orch_agent_description (p : String × List String) : String :=
  "- " ++ p.1 ++ ": handles tasks containing "
    ++ String.intercalate ", " (p.2.map quoteTrigger)

/-- `ConversationalOrchestrator._get_system_prompt()`. -/
def orch_system_prompt (registry : List (String × List String)) : String :=
  let agent_descriptions := registry.map orch_agent_description
  let agents_list :=
    if agent_descriptions.isEmpty then "No specialized agents available"
    else String.intercalate "\n" agent_descriptions
  "You are a helpful conversational assistant that can chat about any topic and delegate specialized tasks to sub-agents when needed.\n\n        Your capabilities:\n        1. Have natural conversations about any topic\n        2. Answer questions using your knowledge\n        3. Delegate to specialized agents when users ask for specific tasks\n\n        Available specialized agents:\n        "
    ++ agents_list
    ++ "\n\n        IMPORTANT: Only delegate to a specialized agent when the user explicitly asks for that specific task. \n        For general questions or conversations, respond directly.\n\n        When you need to delegate:\n        - Set the task description clearly\n        - Indicate which agent should handle it\n        - Let the user know you're delegating\n\n        Otherwise, just have a friendly conversation!"

/-- The update of the conversational branch of `orchestrator_node`:
invoke the orchestrator model over the (possibly system-prefixed)
history. -/
def conversationalUpdate (orchModel : List Message → Message)
    (messages : List Message) : StateUpdate :=
  { new_messages := [orchModel messages]
    current_task := none
    delegated_to := none
    task_complete := true }

/-- `ConversationalOrchestrator.orchestrator_node(state)`.  `none`
models the `messages[-1]` IndexError on an empty history (never reached
from `chat`, which always appends the user message first).  Python
truthiness makes `if delegate_to:` treat an empty-string agent name like
`None`. -/
def orchestrator_node (registry : List (String × List String))
    (orchModel : List Message → Message) (state : OState) :
    Option StateUpdate :=
  match state.messages.getLast? with
  | none => none
  | some last_message =>
    let messages :=
      if (state.messages.filter isSystemMessage).isEmpty then
        Message.system (orch_system_prompt registry) :: state.messages
      else state.messages
    some (match last_message with
      | Message.human content =>
        match should_delegate registry content with
        | some delegate_to =>
          if delegate_to.isEmpty then
            conversationalUpdate orchModel messages
          else
            let agent_name := title delegate_to
            { new_messages := [Message.ai
                ("I'll help you with that " ++ agent_name
                  ++ " task. Let me process your request...\n\nDelegating to "
                  ++ agent_name ++ " agent...") []]
              current_task := some content
              delegated_to := some delegate_to
              task_complete := false }
        | none => conversationalUpdate orchModel messages
      | _ => conversationalUpdate orchModel messages)

/-- The node closure produced by
`ConversationalOrchestrator.create_delegation_node(agent_name)`.
`runAgent` stands for `agent.process_request(task)`; `Except.error e`
models it raising an exception whose `str` is `e`.  The task is
`state.get("current_task", "")`, which yields the stored optional
value. -/
def delegation_node (agent_name : String)
    (runAgent : Option String → Except String String)
    (state : OState) : StateUpdate :=
  let task := state.current_task
  match runAgent task with
  | Except.ok result =>
    { new_messages := [Message.ai
        (title agent_name ++ " task completed:\n\n" ++ result) []]
      current_task := none
      delegated_to := none
      task_complete := true }
  | Except.error e =>
    { new_messages := [Message.ai
        ("Error processing " ++ title agent_name ++ " task: " ++ e) []]
      current_task := none
      delegated_to := none
      task_complete := true }

/-- The langgraph `END` sentinel. -/
def END_NODE : String := "__end__"

/-- `ConversationalOrchestrator.should_continue(state)`; Python
truthiness sends an empty-string `delegated_to` to `END` too. -/
def should_continue (state : OState) : String :=
  match state.delegated_to with
  | some d => if d.isEmpty then END_NODE else "delegate_" ++ d
  | none => END_NODE

/-! ## The configured registry (`create_orchestrator_with_agents`) -/

def gmail_triggers : List String :=
  ["email", "gmail", "draft", "compose", "send mail",
   "search mail", "search email", "label email",
   "categorize email", "organize email", "find email"]

def calendar_triggers : List String :=
  ["calendar", "meeting", "appointment", "event", "schedule",
   "book time", "set up meeting", "create event", "add to calendar",
   "check calendar", "free time", "availability", "busy",
   "reschedule", "cancel meeting", "update event", "find meetings",
   "team standup", "recurring meeting", "all-day event"]

/-- The sub-agent registry after the two `add_sub_agent` calls of
`create_orchestrator_with_agents`, in insertion order. -/
def orchestrator_registry : List (String × List String) :=
  [("gmail", gmail_triggers), ("calendar", calendar_triggers)]

/-! ## Gmail tools (`src/tools/gmail_tools.py`) -/

/-- The labels configured by default (`DEFAULT_LABELS`). -/
def DEFAULT_LABELS : List String :=
  ["Spam", "News", "University", "Financial", "Personal",
   "Work", "Promotions", "Meeting", "Other"]

/-- A Python exception as discriminated by `_handle_error`: an
`HttpError` carrying a response status, or any other exception with its
`str` rendering. -/
inductive PyError where
  | http (status : Nat) (msg : String)
  | other (msg : String)
deriving Repr, DecidableEq

/-- `GmailBaseTool._handle_error(error, context)`. -/
def handle_error (error : PyError) (context : String) : String :=
  match error with
  | PyError.http status msg =>
    if status = 404 then "Error: Resource not found in " ++ context
    else if status = 403 then "Error: Permission denied for " ++ context
    else "API Error in " ++ context ++ ": " ++ msg
  | PyError.other msg => "Error in " ++ context ++ ": " ++ msg

/-- `GmailApplyLabelTool._run(email_id, label)`.  `label_lookup` stands
for `GmailToolkit.get_label_id` (which catches internally and returns
`None` on failure); `modify` stands for the remote
`users().messages().modify(...).execute()` call.  The second component
counts how many `modify` calls were issued. -/
def apply_label_run (allowed_labels : List String)
    (label_lookup : String → Option String)
    (modify : String → String → Except PyError String)
    (email_id label : String) : String × Nat :=
  if ((allowed_labels.map lowerStr).contains (lowerStr label)) = false then
    ("Error: '" ++ label ++ "' is not an allowed label. Allowed labels are: "
      ++ String.intercalate ", " allowed_labels, 0)
  else
    match label_lookup label with
    | none =>
      ("Error: Label '" ++ label
        ++ "' not found in Gmail. Please ensure it exists in your Gmail account.", 0)
    | some label_id =>
      match modify email_id label_id with
      | Except.ok _ =>
        ("Successfully applied label '" ++ label ++ "' to email " ++ email_id, 1)
      | Except.error e =>
        (handle_error e ("applying label to email " ++ email_id), 1)

/-- The interpreter-rendered text of the `TypeError` raised by the call
`self._parse_email(message, include_body)`: `_parse_email(self, message)`
declares one positional parameter besides `self`, but the call site in
`GmailGetEmailTool._run` passes two. -/
def parse_email_type_error : String :=
  "GmailGetEmailTool._parse_email() takes 2 positional arguments but 3 were given"

/-- `GmailGetEmailTool._run(email_id, include_body)`.  `fetch` stands
for the remote `users().messages().get(...).execute()` call.  When the
fetch succeeds, the very next statement
`self._parse_email(message, include_body)` raises a `TypeError` (arity
mismatch) inside the `try` block, so the formatting code below it never
runs. -/
def get_email_run (fetch : String → Except PyError String)
    (email_id : String) (_include_body : Bool) : String :=
  match fetch email_id with
  | Except.error e => handle_error e ("retrieving email " ++ email_id)
  | Except.ok _message =>
    handle_error (PyError.other parse_email_type_error)
      ("retrieving email " ++ email_id)

/-! ## Concrete sample data used by closed theorems -/

/-- A tool call requesting a name absent from every registry used with
it below. -/
def unknownToolCall : ToolCall := ⟨"call_1", "make_coffee", ""⟩

/-- A registered tool whose name differs from `unknownToolCall`'s. -/
def draftTool : Tool := ⟨"create_gmail_draft", fun _ => Except.ok "draft created"⟩

/-- A model that answers one round with a single resolvable tool call. -/
def sampleToolCall : ToolCall := ⟨"call_7", "create_gmail_draft", ""⟩

def sampleModel : List Message → ModelResponse :=
  fun _ => ⟨"working on it", [sampleToolCall]⟩

/-- The Scenario A user message. -/
def scenarioA_message : String :=
  "Create a meeting called Team Standup tomorrow at 10am for 30 minutes"

/-- The langgraph state at the start of the Scenario A turn: the fresh
turn state of `chat` after the user message is appended. -/
def scenarioA_state : OState :=
  { messages := [Message.human scenarioA_message]
    current_task := none
    delegated_to := none
    task_complete := false }

/-- The update the orchestrator node returns on a plain conversational
turn with the constant model below (used to witness the terminal-update
invariant). -/
def sampleDirectUpdate : StateUpdate :=
  { new_messages := [Message.ai "hi" []]
    current_task := none
    delegated_to := none
    task_complete := true }

/-! # Theorems

Helper lemmas first, then one theorem per claim (with witnesses and
counterexamples where the claim's status needs them). -/

/-- The ToolMessage produced for a resolved call always carries the
originating call's id, whether the tool succeeded or raised. -/
theorem runToolCall_toolCallId (t : Tool) (tc : ToolCall) :
    (runToolCall t tc).toolCallId? = some tc.id := by
  unfold runToolCall
  cases t.invoke tc.args <;> rfl

/-- `triggers_match` is the Boolean of "some trigger phrase, lower-cased,
is a substring of the lower-cased message". -/
theorem triggers_match_iff (ml : String) (ts : List String) :
    triggers_match ml ts = true ↔ ∃ t ∈ ts, strContains ml (lowerStr t) = true := by
  induction ts with
  | nil => simp [triggers_match]
  | cons t ts ih => simp [triggers_match, Bool.or_eq_true, ih]

/-- Bridge between the Boolean inner loop and the spec-level predicate. -/
theorem agentMatches_iff (m : String) (p : String × List String) :
    agentMatches m p ↔ triggers_match (lowerStr m) p.2 = true := by
  unfold agentMatches
  exact (triggers_match_iff _ _).symm

/-- `should_delegate_go` returns `none` exactly when no registered
sub-agent's triggers match. -/
theorem sdg_none_iff (reg : List (String × List String)) (ml : String) :
    should_delegate_go reg ml = none ↔ ∀ p ∈ reg, triggers_match ml p.2 = false := by
  induction reg with
  | nil => simp [should_delegate_go]
  | cons q rest ih =>
    obtain ⟨n, ts⟩ := q
    by_cases h : triggers_match ml ts = true
    · simp [should_delegate_go, h]
    · have h' : triggers_match ml ts = false := by simpa using h
      simp [should_delegate_go, h', ih]

/-- `should_delegate_go` returns `some name` exactly when `name` heads
the first registry entry (in registration order) whose triggers match. -/
theorem sdg_some_iff (reg : List (String × List String)) (ml name : String) :
    should_delegate_go reg ml = some name ↔
      ∃ pre p post, reg = pre ++ p :: post ∧ p.1 = name
        ∧ triggers_match ml p.2 = true
        ∧ ∀ q ∈ pre, triggers_match ml q.2 = false := by
  induction reg with
  | nil =>
    constructor
    · intro h; simp [should_delegate_go] at h
    · rintro ⟨pre, p, post, habs, -⟩
      cases pre <;> simp at habs
  | cons q rest ih =>
    obtain ⟨n, ts⟩ := q
    by_cases h : triggers_match ml ts = true
    · constructor
      · intro hs
        simp [should_delegate_go, h] at hs
        exact ⟨[], (n, ts), rest, by simp, by simp [hs], h, by simp⟩
      · rintro ⟨pre, p, post, hdecomp, hname, hmatch, hpre⟩
        cases pre with
        | nil =>
          simp at hdecomp
          obtain ⟨hp, -⟩ := hdecomp
          simp [should_delegate_go, h, ← hname, ← hp]
        | cons a as =>
          rw [List.cons_append] at hdecomp
          have ha : (n, ts) = a := by injection hdecomp with h1 _
          have hfalse : triggers_match ml ts = false := by
            have := hpre a (by simp)
            rw [← ha] at this
            exact this
          rw [h] at hfalse
          exact absurd hfalse (by simp)
    · have h' : triggers_match ml ts = false := by simpa using h
      constructor
      · intro hs
        have hs' : should_delegate_go rest ml = some name := by
          simpa [should_delegate_go, h'] using hs
        obtain ⟨pre, p, post, hd, hn, hm, hp⟩ := ih.mp hs'
        refine ⟨(n, ts) :: pre, p, post, by simp [hd], hn, hm, ?_⟩
        intro x hx
        rcases List.mem_cons.mp hx with hx1 | hx2
        · rw [hx1]; exact h'
        · exact hp x hx2
      · rintro ⟨pre, p, post, hd, hn, hm, hp⟩
        cases pre with
        | nil =>
          simp at hd
          obtain ⟨hp1, -⟩ := hd
          rw [← hp1] at hm
          rw [hm] at h'
          exact absurd h' (by simp)
        | cons a as =>
          rw [List.cons_append] at hd
          have h2 : rest = as ++ p :: post := by injection hd with _ h2
          have hrest : should_delegate_go rest ml = some name :=
            ih.mpr ⟨as, p, post, h2, hn, hm, fun x hx => hp x (by simp [hx])⟩
          simpa [should_delegate_go, h'] using hrest

/-- `startsWithL` is stable under extending the scanned list on the
right. -/
theorem startsWithL_nil (p : List Char) : startsWithL p [] = true := by
  cases p <;> rfl

theorem startsWithL_mono (q : List Char) :
    ∀ p r : List Char, startsWithL p q = true → startsWithL (p ++ r) q = true := by
  induction q with
  | nil => intro p r _; exact startsWithL_nil _
  | cons d ds ih =>
    intro p r h
    cases p with
    | nil => simp [startsWithL] at h
    | cons c cs =>
      simp only [startsWithL, Bool.and_eq_true, decide_eq_true_eq] at h
      simp only [List.cons_append, startsWithL, Bool.and_eq_true, decide_eq_true_eq]
      exact ⟨h.1, ih cs r h.2⟩

/-- The calendar system prompt determines the interpolated datetime
string: two different clock readings give two different prompts. -/
theorem calendar_prompt_injective (t c : String)
    (h : calendar_get_system_prompt t = calendar_get_system_prompt c) : t = c := by
  have hd := congrArg String.data h
  simp only [calendar_get_system_prompt, String.data_append, List.append_assoc,
    List.append_cancel_left_eq] at hd
  exact String.ext (List.append_cancel_right hd)

/-! ### Claims C1 and C2: tool calls with unknown names -/

/-- C1 (counterexample): the claim says that a ToolCall whose name is
absent from the agent's tool list yields an appended Tool message with
an error text bearing that call's id.  With an empty tool list and the
call `⟨"call_1", "make_coffee", ""⟩`, the loop body appends no message
at all — in particular none bearing `"call_1"` — because the `if tool:`
test has no `else` branch. -/
theorem C1_counterexample :
    ¬ ∃ msg ∈ processToolCalls [] [unknownToolCall],
        msg.toolCallId? = some unknownToolCall.id := by
  decide

/-- C1 (amended): a ToolCall whose name resolves to no registered tool
is silently skipped — it contributes no Tool message and no tool
invocation — while the surrounding calls are processed unchanged; being
a total function of the embedding, the loop body propagates no
exception. -/
theorem C1_unknown_tool_skipped (tools : List Tool) (pre post : List ToolCall)
    (tc : ToolCall) (h : findTool tools tc.name = none) :
    processToolCalls tools (pre ++ tc :: post) = processToolCalls tools (pre ++ post)
    ∧ toolInvocations tools (pre ++ tc :: post) = toolInvocations tools (pre ++ post) := by
  constructor
  · induction pre with
    | nil => simp [processToolCalls, h]
    | cons q qs ih =>
      simp only [List.cons_append, processToolCalls]
      cases findTool tools q.name <;> simp [ih]
  · simp [toolInvocations, List.filter_append, List.filter_cons, h]

theorem C1_unknown_tool_skipped_witness :
    processToolCalls [draftTool] ([sampleToolCall] ++ unknownToolCall :: [])
      = processToolCalls [draftTool] ([sampleToolCall] ++ [])
    ∧ toolInvocations [draftTool] ([sampleToolCall] ++ unknownToolCall :: [])
      = toolInvocations [draftTool] ([sampleToolCall] ++ []) :=
  C1_unknown_tool_skipped [draftTool] [sampleToolCall] [] unknownToolCall rfl

/-- C2 (counterexample): the claim says an AI response carrying N
ToolCalls always yields exactly N invocations and N Tool messages.
With one registered tool `create_gmail_draft` and a single ToolCall
naming `make_coffee` (N = 1), the loop performs 0 invocations and
appends 0 Tool messages. -/
theorem C2_counterexample :
    ¬ ((processToolCalls [draftTool] [unknownToolCall]).length = 1
       ∧ toolInvocations [draftTool] [unknownToolCall] = 1) := by
  decide

/-- C2 (amended): for every AI response, the loop performs exactly one
tool invocation and appends exactly one Tool message per ToolCall whose
name resolves in the tool list (unresolvable calls are skipped); each
appended message is a Tool message whose `tool_call_id` equals the
originating ToolCall's id, in emission order; and on a response carrying
tool calls the loop appends exactly the AI message plus these Tool
messages to the history before invoking the model again. -/
theorem C2_toolcall_roundtrip (tools : List Tool) (tcs : List ToolCall)
    (model : List Message → ModelResponse) (fuel : Nat)
    (messages : List Message) (calls : Nat) :
    (processToolCalls tools tcs).map Message.toolCallId?
      = (tcs.filter (fun tc => (findTool tools tc.name).isSome)).map (fun tc => some tc.id)
    ∧ (processToolCalls tools tcs).length = toolInvocations tools tcs
    ∧ ((model messages).tool_calls.isEmpty = false →
        agent_loop model tools (fuel + 1) messages calls
          = agent_loop model tools fuel
              (messages
                ++ [Message.ai (model messages).content (model messages).tool_calls]
                ++ processToolCalls tools (model messages).tool_calls)
              (calls + 1)) := by
  refine ⟨?_, ?_, ?_⟩
  · induction tcs with
    | nil => rfl
    | cons tc rest ih =>
      cases h : findTool tools tc.name with
      | none => simp [processToolCalls, h, List.filter_cons, ih]
      | some t =>
        simp [processToolCalls, h, List.filter_cons, runToolCall_toolCallId, ih]
  · induction tcs with
    | nil => rfl
    | cons tc rest ih =>
      cases h : findTool tools tc.name with
      | none => simpa [processToolCalls, h, toolInvocations, List.filter_cons] using ih
      | some t => simpa [processToolCalls, h, toolInvocations, List.filter_cons] using ih
  · intro h
    simp [agent_loop, h, List.append_assoc]

theorem C2_toolcall_roundtrip_witness :
    agent_loop sampleModel [draftTool] 1 [] 0
      = agent_loop sampleModel [draftTool] 0
          ([] ++ [Message.ai "working on it" [sampleToolCall]]
            ++ processToolCalls [draftTool] [sampleToolCall]) 1 :=
  (C2_toolcall_roundtrip [draftTool] [sampleToolCall] sampleModel 0 [] 0).2.2 rfl

/-! ### Claim C3: a response without tool calls ends the turn -/

/-- C3: when the model's response to the seeded history carries no
ToolCalls, `process_request` terminates after exactly one model
invocation and returns that response's text content unmodified. -/
theorem C3_no_toolcalls_terminates (model : List Message → ModelResponse)
    (tools : List Tool) (sp req : String) (fuel : Nat)
    (h : (model [Message.system sp, Message.human req]).tool_calls = []) :
    process_request model tools sp req (fuel + 1)
      = some ((model [Message.system sp, Message.human req]).content, 1) := by
  simp [process_request, agent_loop, h]

theorem C3_no_toolcalls_terminates_witness :
    process_request (fun _ => ⟨"Paris is the capital of France.", []⟩) []
        "sys" "What is the capital of France?" 1
      = some ("Paris is the capital of France.", 1) :=
  C3_no_toolcalls_terminates _ [] _ _ 0 rfl

/-! ### Claim C4: the seeded system message and the clock -/

/-- C4 (counterexample): the claim says every sub-agent's seed system
message is built fresh at call time, not taken from the value stored at
construction.  `GmailAgent.process_request` reads the stored
`self.system_prompt` field (gmail_agent.py line 108, set once in
`__init__` at line 86): on an agent state whose stored field holds
`"stale stored prompt"`, the seed echoes that stored value and differs
from the spec-modelled freshly built seed — the seed is a function of
the construction-stored value, which the claim rules out. -/
theorem C4_counterexample :
    gmail_seed ⟨"stale stored prompt"⟩ "r"
        = [Message.system "stale stored prompt", Message.human "r"]
    ∧ gmail_seed ⟨"stale stored prompt"⟩ "r" ≠ gmail_seed_fresh_spec "r" := by
  constructor
  · rfl
  · decide

/-- C4 (amended): the calendar agent's `process_request` builds the
system message fresh at call time — the seeded prompt is the module's
builder evaluated at the call's wall clock, independent of the
construction-time reading (two distinct readings provably yield two
distinct prompts, so the freshness is observable) — while the gmail
agent's `process_request` seeds from whatever `self.system_prompt` was
computed once at construction; since `__init__` stores the gmail
builder's output and that builder is a time-independent constant, the
gmail seed coincides with a freshly built one even though it is taken
from the stored value. -/
theorem C4_seed_source_per_agent (c c' t req s : String) :
    calendar_seed (CalendarAgent.init c) t req
        = [Message.system (calendar_get_system_prompt t), Message.human req]
    ∧ calendar_seed (CalendarAgent.init c) t req
        = calendar_seed (CalendarAgent.init c') t req
    ∧ (t ≠ c → calendar_get_system_prompt t ≠ calendar_get_system_prompt c)
    ∧ gmail_seed ⟨s⟩ req = [Message.system s, Message.human req]
    ∧ GmailAgent.init.system_prompt = gmail_get_system_prompt := by
  refine ⟨rfl, rfl, ?_, rfl, rfl⟩
  intro hne heq
  exact hne (calendar_prompt_injective t c heq)

theorem C4_seed_source_per_agent_witness :
    calendar_get_system_prompt "Tuesday, June 10, 2025 at 09:30 AM"
      ≠ calendar_get_system_prompt "Monday, June 09, 2025 at 09:30 AM"
    ∧ gmail_seed ⟨"p"⟩ "r" = [Message.system "p", Message.human "r"] :=
  ⟨(C4_seed_source_per_agent "Monday, June 09, 2025 at 09:30 AM" "x"
      "Tuesday, June 10, 2025 at 09:30 AM" "r" "p").2.2.1 (by decide),
   (C4_seed_source_per_agent "Monday, June 09, 2025 at 09:30 AM" "x"
      "Tuesday, June 10, 2025 at 09:30 AM" "r" "p").2.2.2.1⟩

/-! ### Claim C5: the delegation router -/

/-- C5: `_should_delegate` returns `none` exactly when no registered
sub-agent has a trigger phrase that is a case-insensitive substring of
the message, and returns `some name` exactly when `name` is the first
sub-agent in registration order with such a trigger (so with overlapping
triggers the first-registered sub-agent wins).  The embedding is a plain
function of the message and the trigger table, so determinism across
repeated calls with the same inputs is inherent. -/
theorem C5_router_first_match (registry : List (String × List String)) (m : String) :
    (should_delegate registry m = none ↔ ∀ p ∈ registry, ¬ agentMatches m p)
    ∧ ∀ name : String,
        should_delegate registry m = some name ↔
          ∃ pre p post, registry = pre ++ p :: post ∧ p.1 = name
            ∧ agentMatches m p ∧ ∀ q ∈ pre, ¬ agentMatches m q := by
  constructor
  · rw [should_delegate, sdg_none_iff]
    simp only [agentMatches_iff, Bool.not_eq_true]
  · intro name
    rw [should_delegate, sdg_some_iff]
    simp only [agentMatches_iff, Bool.not_eq_true]

theorem C5_router_first_match_witness :
    ∃ pre p post, orchestrator_registry = pre ++ p :: post ∧ p.1 = "calendar"
      ∧ agentMatches scenarioA_message p
      ∧ ∀ q ∈ pre, ¬ agentMatches scenarioA_message q :=
  ((C5_router_first_match orchestrator_registry scenarioA_message).2 "calendar").mp
    (by decide)

/-! ### Claim C6: delegation failures are caught -/

/-- C6: when the sub-agent's `process_request` raises (here:
`runAgent` returns `Except.error e`), the delegation node returns — not
raises — the same shape of terminal update as on success: a single AI
message `"Error processing <Agent> task: <reason>"`, with
`current_task` and `delegated_to` cleared and `task_complete = true`. -/
theorem C6_delegation_failure_caught (agent_name : String)
    (runAgent : Option String → Except String String) (state : OState) (e : String)
    (h : runAgent state.current_task = Except.error e) :
    delegation_node agent_name runAgent state
      = { new_messages := [Message.ai
            ("Error processing " ++ title agent_name ++ " task: " ++ e) []]
          current_task := none
          delegated_to := none
          task_complete := true } := by
  simp [delegation_node, h]

theorem C6_delegation_failure_caught_witness :
    delegation_node "calendar" (fun _ => Except.error "Connection refused")
        ⟨[Message.human "hi"], some "task", some "calendar", false⟩
      = { new_messages := [Message.ai
            ("Error processing " ++ title "calendar" ++ " task: " ++ "Connection refused") []]
          current_task := none
          delegated_to := none
          task_complete := true } :=
  C6_delegation_failure_caught "calendar" (fun _ => Except.error "Connection refused")
    ⟨[Message.human "hi"], some "task", some "calendar", false⟩ "Connection refused" rfl

/-! ### Claim C7: Scenario A end to end -/

/-- C7: on the message "Create a meeting called Team Standup tomorrow at
10am for 30 minutes" with the configured registry, the router picks the
calendar sub-agent (the message contains the triggers "meeting" and
"team standup" and no gmail trigger), the orchestrator node emits the
delegation update, `should_continue` routes to `delegate_calendar`, and
the delegation node's final AI message is the sub-agent's result text
prefixed with "Calendar task completed:". -/
theorem C7_scenario_A (orchModel : List Message → Message)
    (runAgent : Option String → Except String String) (result : String)
    (h : runAgent (some scenarioA_message) = Except.ok result) :
    should_delegate orchestrator_registry scenarioA_message = some "calendar"
    ∧ strContains (lowerStr scenarioA_message) "meeting" = true
    ∧ strContains (lowerStr scenarioA_message) "team standup" = true
    ∧ triggers_match (lowerStr scenarioA_message) gmail_triggers = false
    ∧ ∃ u : StateUpdate,
        orchestrator_node orchestrator_registry orchModel scenarioA_state = some u
        ∧ u.delegated_to = some "calendar"
        ∧ should_continue (applyUpdate scenarioA_state u) = "delegate_calendar"
        ∧ delegation_node "calendar" runAgent (applyUpdate scenarioA_state u)
            = { new_messages := [Message.ai
                  ("Calendar task completed:\n\n" ++ result) []]
                current_task := none
                delegated_to := none
                task_complete := true } := by
  refine ⟨by decide, by decide, by decide, by decide, ?_⟩
  refine ⟨⟨[Message.ai ("I'll help you with that Calendar task. Let me process your request...\n\nDelegating to Calendar agent...") []],
           some scenarioA_message, some "calendar", false⟩, rfl, rfl, by decide, ?_⟩
  simp only [applyUpdate, delegation_node, h]
  rfl

theorem C7_scenario_A_witness :
    ∃ u : StateUpdate,
      orchestrator_node orchestrator_registry (fun _ => Message.ai "" []) scenarioA_state
          = some u
      ∧ u.delegated_to = some "calendar"
      ∧ should_continue (applyUpdate scenarioA_state u) = "delegate_calendar"
      ∧ delegation_node "calendar" (fun _ => Except.ok "Event created")
            (applyUpdate scenarioA_state u)
          = { new_messages := [Message.ai
                ("Calendar task completed:\n\n" ++ "Event created") []]
              current_task := none
              delegated_to := none
              task_complete := true } :=
  (C7_scenario_A (fun _ => Message.ai "" []) (fun _ => Except.ok "Event created")
    "Event created" rfl).2.2.2.2

/-! ### Claim C8: disallowed labels are rejected before any remote call -/

/-- C8: for every invocation of `apply_email_label` with a label whose
lower-cased form is not among the lower-cased allowed labels, the tool
returns the error text listing the allowed labels and issues zero
`modify` calls against the remote service; as a total function of the
embedding it raises nothing to its caller. -/
theorem C8_disallowed_label_rejected (allowed : List String)
    (label_lookup : String → Option String)
    (modify : String → String → Except PyError String)
    (email_id label : String)
    (h : ((allowed.map lowerStr).contains (lowerStr label)) = false) :
    apply_label_run allowed label_lookup modify email_id label
      = ("Error: '" ++ label ++ "' is not an allowed label. Allowed labels are: "
          ++ String.intercalate ", " allowed, 0) := by
  unfold apply_label_run
  rw [h]
  simp

theorem C8_disallowed_label_rejected_witness :
    apply_label_run DEFAULT_LABELS (fun _ => none) (fun _ _ => Except.ok "")
        "18c7f8a5b2d3e4f5" "Urgent"
      = ("Error: '" ++ "Urgent" ++ "' is not an allowed label. Allowed labels are: "
          ++ String.intercalate ", " DEFAULT_LABELS, 0) :=
  C8_disallowed_label_rejected DEFAULT_LABELS (fun _ => none) (fun _ _ => Except.ok "")
    "18c7f8a5b2d3e4f5" "Urgent" (by decide)

/-! ### Claim C9: `get_email_content` can never return the content -/

/-- C9: whenever the remote fetch succeeds, `GmailGetEmailTool._run`
returns `"Error in retrieving email <id>: <TypeError text>"` — the call
`self._parse_email(message, include_body)` passes two arguments to a
method accepting one, so a `TypeError` is raised inside the `try` block
and converted by `_handle_error`; moreover every possible return value,
for any fetch outcome, starts with `"Error"` or `"API Error"`, so the
email's formatted content (which starts with `"Email ID: "`) is never
returned. -/
theorem C9_get_email_always_errors (fetch : String → Except PyError String)
    (email_id : String) (include_body : Bool) (msg : String)
    (h : fetch email_id = Except.ok msg) :
    get_email_run fetch email_id include_body
      = "Error in retrieving email " ++ email_id ++ ": " ++ parse_email_type_error
    ∧ ∀ (fetch' : String → Except PyError String) (ib : Bool),
        startsWithL (get_email_run fetch' email_id ib).data ("Error".data) = true
        ∨ startsWithL (get_email_run fetch' email_id ib).data ("API Error".data) = true := by
  constructor
  · simp only [get_email_run, h, handle_error]
    apply String.ext
    have hlit : "Error in ".data ++ "retrieving email ".data
        = "Error in retrieving email ".data := by decide
    simp only [String.data_append, List.append_assoc]
    rw [← List.append_assoc, hlit]
  · intro fetch' ib
    cases hf : fetch' email_id with
    | ok m =>
      left
      simp only [get_email_run, hf, handle_error, String.data_append, List.append_assoc]
      exact startsWithL_mono _ _ _ (by decide)
    | error e =>
      cases e with
      | other m =>
        left
        simp only [get_email_run, hf, handle_error, String.data_append, List.append_assoc]
        exact startsWithL_mono _ _ _ (by decide)
      | http status m =>
        by_cases h4 : status = 404
        · left
          simp only [get_email_run, hf, handle_error, h4, if_pos, String.data_append,
            List.append_assoc]
          exact startsWithL_mono _ _ _ (by decide)
        · by_cases h3 : status = 403
          · left
            simp only [get_email_run, hf, handle_error, h4, h3, if_true, if_false,
              ite_false, ite_true, String.data_append, List.append_assoc]
            exact startsWithL_mono _ _ _ (by decide)
          · right
            simp only [get_email_run, hf, handle_error, h4, h3, ite_false,
              String.data_append, List.append_assoc]
            exact startsWithL_mono _ _ _ (by decide)

theorem C9_get_email_always_errors_witness :
    get_email_run (fun _ => Except.ok "raw payload") "18c7f8a5b2d3e4f5" true
      = "Error in retrieving email " ++ "18c7f8a5b2d3e4f5" ++ ": "
          ++ parse_email_type_error :=
  (C9_get_email_always_errors (fun _ => Except.ok "raw payload") "18c7f8a5b2d3e4f5"
    true "raw payload" rfl).1

/-! ### Claim C10: terminal updates clear the transient state -/

/-- C10: every update returned by the orchestrator node with
`task_complete = true` (its direct-answer branch) clears both
`current_task` and `delegated_to`; its update has `delegated_to ≠ none`
only in the delegation branch, where `task_complete = false` and
`current_task` is set; and every delegation-node update (success or
error branch alike) clears `current_task` and `delegated_to` and sets
`task_complete = true`. -/
theorem C10_terminal_updates_clear_state
    (registry : List (String × List String)) (orchModel : List Message → Message)
    (state : OState) (u : StateUpdate) (agent_name : String)
    (runAgent : Option String → Except String String) (st : OState)
    (h : orchestrator_node registry orchModel state = some u) :
    (u.task_complete = true → u.current_task = none ∧ u.delegated_to = none)
    ∧ (u.delegated_to ≠ none → u.task_complete = false ∧ u.current_task ≠ none)
    ∧ (delegation_node agent_name runAgent st).current_task = none
    ∧ (delegation_node agent_name runAgent st).delegated_to = none
    ∧ (delegation_node agent_name runAgent st).task_complete = true := by
  have hdel : (delegation_node agent_name runAgent st).current_task = none
      ∧ (delegation_node agent_name runAgent st).delegated_to = none
      ∧ (delegation_node agent_name runAgent st).task_complete = true := by
    cases hr : runAgent st.current_task <;> simp [delegation_node, hr]
  rw [orchestrator_node] at h
  cases hL : state.messages.getLast? with
  | none => rw [hL] at h; exact absurd h (by simp)
  | some last =>
    rw [hL] at h
    simp only [Option.some.injEq] at h
    subst h
    cases last with
    | human content =>
      cases hsd : should_delegate registry content with
      | none => simp [hsd, conversationalUpdate, hdel]
      | some d =>
        by_cases hde : d.isEmpty
        · simp [hsd, hde, conversationalUpdate, hdel]
        · simp [hsd, hde, hdel]
    | system c => simp [conversationalUpdate, hdel]
    | ai c tcs => simp [conversationalUpdate, hdel]
    | tool c i => simp [conversationalUpdate, hdel]

theorem C10_terminal_updates_clear_state_witness :
    (sampleDirectUpdate.task_complete = true →
        sampleDirectUpdate.current_task = none ∧ sampleDirectUpdate.delegated_to = none)
    ∧ (sampleDirectUpdate.delegated_to ≠ none →
        sampleDirectUpdate.task_complete = false ∧ sampleDirectUpdate.current_task ≠ none)
    ∧ (delegation_node "calendar" (fun _ => Except.ok "done")
        ⟨[], none, none, false⟩).current_task = none
    ∧ (delegation_node "calendar" (fun _ => Except.ok "done")
        ⟨[], none, none, false⟩).delegated_to = none
    ∧ (delegation_node "calendar" (fun _ => Except.ok "done")
        ⟨[], none, none, false⟩).task_complete = true :=
  C10_terminal_updates_clear_state orchestrator_registry (fun _ => Message.ai "hi" [])
    ⟨[Message.human "hello"], none, none, false⟩ sampleDirectUpdate "calendar"
    (fun _ => Except.ok "done") ⟨[], none, none, false⟩ rfl

end AgentSys
